import Mathlib

/-!
Shallow embedding of the ValueSnap repository's asset-generation and
site-patching pipeline, together with the Flask waitlist endpoint.

Sources embedded:
* `ai_image_generation/generate_ai_images.py` (class `ValueSnapImageGenerator`)
* `ai_image_generation/update_persona_images.py` (class `PersonaImageUpdater`)
* `app.py` (route `join_waitlist`)

External effects (the OpenAI call, the HTTP download, PIL image decoding,
filesystem writes) are modelled by explicit environment records carrying the
outcome each effectful step would produce, and by traces of file operations,
so that control flow and on-disk consequences of the Python code are captured
faithfully.
-/

namespace ValueSnap

/-- One persona entry of `ValueSnapImageGenerator.consumer_personas`:
the dict with keys `name`, `age_range`, `description`, `prompt`. -/
structure Persona where
  name : String
  age_range : String
  description : String
  prompt : String
deriving DecidableEq, Repr

/-- The static registry `self.consumer_personas` from
`generate_ai_images.py`, in its Python insertion order. -/
def consumer_personas : List (String × Persona) :=
  [ ("estate_inheritor",
      { name := "Estate Inheritor"
        age_range := "35-55"
        description := "Professional woman who inherited family antiques and collectibles"
        prompt := "Professional portrait of a 45-year-old woman in business attire, standing in a home office with vintage furniture and inherited antiques in the background, warm lighting, confident expression, realistic photography style" }),
    ("reseller_entrepreneur",
      { name := "Reseller Entrepreneur"
        age_range := "25-40"
        description := "Young professional who buys and sells items for profit"
        prompt := "Portrait of a 32-year-old person in casual business attire, sitting at a desk with multiple items for resale (vintage items, electronics, collectibles) organized around them, modern apartment setting, entrepreneurial vibe, realistic photography style" }),
    ("antique_collector",
      { name := "Antique Collector"
        age_range := "50-70"
        description := "Mature collector evaluating valuable items"
        prompt := "Distinguished 60-year-old person examining an antique item with a magnifying glass, surrounded by carefully curated vintage items and books, library or study setting, sophisticated atmosphere, realistic photography style" }),
    ("small_business_owner",
      { name := "Small Business Owner"
        age_range := "30-50"
        description := "Shop owner who needs quick item valuations"
        prompt := "Portrait of a 40-year-old small business owner in their vintage/consignment shop, surrounded by diverse items for sale, friendly and approachable expression, natural lighting, realistic photography style" }) ]

/-- The registry's key sequence, in iteration order
(`self.consumer_personas.keys()`). -/
def personaKeys : List String := consumer_personas.map Prod.fst

/-- The success dict returned by `generate_consumer_image`. -/
structure GenRecord where
  persona_key : String
  persona_name : String
  image_url : String
  file_path : String
  filename : String
  size : String
  format : String
  timestamp : String
  prompt_used : String
deriving DecidableEq, Repr

/-- Outcomes of the external effectful steps inside one
`generate_consumer_image` call: the OpenAI `images.generate` call (step a/b),
the `requests.get` download (step c), and the PIL `Image.open` verification of
the saved bytes (step d).  Each is the result that step would produce if
reached. -/
structure GenEnv where
  apiResult : Except String String
  downloadResult : Except String (List Nat)
  verifyResult : Except String (Nat × Nat × String)
deriving Repr

/-- A filesystem operation performed on the asset directory. -/
inductive FileOp where
  | write (path : String) (content : List Nat)
  | remove (path : String)
deriving DecidableEq, Repr

/-- `ValueSnapImageGenerator.generate_consumer_image(persona_key, size)`.

`now` is the `datetime.now().strftime("%Y%m%d_%H%M%S")` timestamp taken at
generation time.  Returns the trace of file operations performed and either
the result dict or the exception message raised.  Mirrors the source: unknown
key raises ValueError before the try block; inside the try block the API call,
the download, the byte write to `generated_images/{key}_{now}.png`, and the
verification happen in order, any failure being re-raised wrapped as
`Failed to generate image for {name}: ...`.  Note the source performs no
removal of the written file when verification fails. -/
def generate_consumer_image (env : GenEnv) (persona_key : String) (now : String) :
    List FileOp × Except String GenRecord :=
  match (consumer_personas.lookup persona_key) with
  | none => ([], .error ("Unknown persona: " ++ persona_key))
  | some persona =>
    match env.apiResult with
    | .error e =>
        ([], .error ("Failed to generate image for " ++ persona.name ++ ": " ++ e))
    | .ok image_url =>
      let filename := persona_key ++ "_" ++ now ++ ".png"
      let file_path := "generated_images/" ++ filename
      match env.downloadResult with
      | .error e =>
          ([], .error ("Failed to generate image for " ++ persona.name ++ ": " ++ e))
      | .ok content =>
        let ops := [FileOp.write file_path content]
        match env.verifyResult with
        | .error e =>
            (ops, .error ("Failed to generate image for " ++ persona.name ++
              ": Failed to verify saved image: " ++ e))
        | .ok (width, height, fmt) =>
            (ops, .ok
              { persona_key := persona_key
                persona_name := persona.name
                image_url := image_url
                file_path := file_path
                filename := filename
                size := toString width ++ "x" ++ toString height
                format := fmt
                timestamp := now
                prompt_used := persona.prompt })

/-- One element of the `results` list built by `generate_all_personas`:
either the success dict of `generate_consumer_image`, or the error dict
`\x7b'persona_key': ..., 'error': ..., 'timestamp': ...\x7d` appended in the
except branch. -/
inductive Outcome where
  | success (r : GenRecord)
  | failure (persona_key : String) (error : String)
deriving DecidableEq, Repr

/-- The persona key an outcome is about: the `persona_key` entry of the dict. -/
def Outcome.key : Outcome → String
  | .success r => r.persona_key
  | .failure k _ => k

/-- Whether the dict has no `error` key (the success test used by
`save_generation_report`). -/
def Outcome.isSuccess : Outcome → Bool
  | .success _ => true
  | .failure _ _ => false

/-- Observable events of the batch loop in `generate_all_personas`: one
`genCall` per `generate_consumer_image` invocation and one `sleepCall` per
`time.sleep(delay)`. -/
inductive Event where
  | genCall (persona_key : String)
  | sleepCall (delay : Nat)
deriving DecidableEq, Repr

/-- The loop body of `generate_all_personas` over an arbitrary key sequence:
`n` is `len(self.consumer_personas)`, `i` the running `enumerate` index.
In the try block a successful call appends the result and, when `i < n - 1`,
sleeps `delay`; an exception skips the sleep and appends the error dict. -/
def generateLoop (env : String → GenEnv) (now : String) (delay : Nat) (n : Nat) :
    Nat → List String → List Outcome × List Event
  | _, [] => ([], [])
  | i, persona_key :: rest =>
    let tail := generateLoop env now delay n (i + 1) rest
    match (generate_consumer_image (env persona_key) persona_key now).2 with
    | .ok r =>
        if i < n - 1 then
          (.success r :: tail.1, .genCall persona_key :: .sleepCall delay :: tail.2)
        else
          (.success r :: tail.1, .genCall persona_key :: tail.2)
    | .error e =>
        (.failure persona_key e :: tail.1, .genCall persona_key :: tail.2)

/-- `ValueSnapImageGenerator.generate_all_personas(size, delay)` over the
registry: iterates `self.consumer_personas.keys()` in order, collecting one
outcome per persona, with the inter-request sleep behaviour of the source. -/
def generate_all_personas (env : String → GenEnv) (now : String) (delay : Nat) :
    List Outcome × List Event :=
  generateLoop env now delay personaKeys.length 0 personaKeys

/-- The report dict built by `save_generation_report(results)`. -/
structure GenerationReport where
  total_personas : Nat
  successful_generations : Nat
  failed_generations : Nat
  results : List Outcome
deriving DecidableEq, Repr

/-- `ValueSnapImageGenerator.save_generation_report(results)`: the report's
`total_personas` is `len(self.consumer_personas)` (the registry size), while
the success/failure counts are computed from the `results` argument by the
presence of an `error` key. -/
def save_generation_report (results : List Outcome) : GenerationReport :=
  { total_personas := consumer_personas.length
    successful_generations := (results.filter (fun r => r.isSuccess)).length
    failed_generations := (results.filter (fun r => !r.isSuccess)).length
    results := results }

/-! ### Site patcher: `update_persona_images.py` -/

/-- One entry of `PersonaImageUpdater.PERSONA_MAPPING`. -/
structure MappingInfo where
  html_name : String
  description : String
deriving DecidableEq, Repr

/-- `PersonaImageUpdater.PERSONA_MAPPING`, in Python insertion order. -/
def PERSONA_MAPPING : List (String × MappingInfo) :=
  [ ("estate_inheritor", { html_name := "Emeka", description := "Estate Manager" }),
    ("reseller_entrepreneur", { html_name := "Jake", description := "Reseller" }) ]

/-- The content of a persona card's avatar `div` in the parsed document:
either the original placeholder content or the single `img` element that
`update_html_with_images` installs (`avatar.clear()` then append). -/
inductive AvatarContent where
  | placeholder (text : String)
  | image (src : String) (alt : String)
deriving DecidableEq, Repr

/-- A parsed `div.persona-card`: its `h3` text (if an `h3` exists) and its
`div.persona-avatar` content (if such a div exists). -/
structure Card where
  nameText : Option String
  avatar : Option AvatarContent
deriving DecidableEq, Repr

/-- Python's `pat in text` substring test over character lists. -/
def containsSub (pat : List Char) : List Char → Bool
  | [] => pat.isEmpty
  | l@(_ :: rest) => pat.isPrefixOf l || containsSub pat rest

/-- The substring test `info['html_name'] in name_text` used to match a card
to a persona, over the card's `h3` text: first mapping entry whose
`html_name` occurs in the text (loop with `break`). -/
def matchPersona (nameText : String) : Option (String × MappingInfo) :=
  PERSONA_MAPPING.find? (fun kv => containsSub kv.2.html_name.toList nameText.toList)

/-- `image_path.name`: the final path component. -/
def baseName (p : String) : String := (p.splitOn "/").getLastD p

/-- One row of `results['updated_personas']`. -/
structure UpdatedEntry where
  persona_key : String
  name : String
  image_path : String
deriving DecidableEq, Repr

/-- The `results` dict of `update_html_with_images`. -/
structure PatchResult where
  updated_personas : List UpdatedEntry
  missing_images : List String
  errors : List String
deriving DecidableEq, Repr

/-- The per-card body of the loop in `update_html_with_images`.
`latest` models `get_latest_image` over the fixed asset-directory snapshot;
`webPath` models `get_web_image_path`.  A card with no `h3`, or whose name
matches no persona, is skipped; a matched card with no asset is recorded
under `missing_images`; a matched card with no avatar div is recorded under
`errors`; in dry-run mode a would-be update mutates nothing and records
nothing; otherwise the avatar content is replaced by the single `img` tag and
the persona recorded as updated. -/
def updateOneCard (latest : String → Option String) (webPath : String → String)
    (dryRun : Bool) (card : Card) (acc : PatchResult) : Card × PatchResult :=
  match card.nameText with
  | none => (card, acc)
  | some nt =>
    match matchPersona nt with
    | none => (card, acc)
    | some (persona_key, info) =>
      match latest persona_key with
      | none => (card, { acc with missing_images := acc.missing_images ++ [persona_key] })
      | some image_path =>
        match card.avatar with
        | none => (card, { acc with
            errors := acc.errors ++ ["No avatar element found for " ++ persona_key] })
        | some _ =>
          if dryRun then (card, acc)
          else
            let alt_text := info.html_name ++ " - " ++ info.description
            ({ card with avatar := some (.image (webPath image_path) alt_text) },
             { acc with updated_personas := acc.updated_personas ++
                 [{ persona_key := persona_key, name := info.html_name,
                    image_path := baseName image_path }] })

/-- The card loop of `update_html_with_images`, in document order. -/
def updateCards (latest : String → Option String) (webPath : String → String)
    (dryRun : Bool) : List Card → PatchResult → List Card × PatchResult
  | [], acc => ([], acc)
  | card :: rest, acc =>
    let step := updateOneCard latest webPath dryRun card acc
    let tail := updateCards latest webPath dryRun rest step.2
    (step.1 :: tail.1, tail.2)

/-- A filesystem operation performed by the patcher on the target document:
the timestamped backup copy made by `create_backup`, or the rewrite of the
document itself. -/
inductive PatchOp where
  | backup (timestamp : String)
  | writeHtml (doc : List Card)
deriving DecidableEq, Repr

/-- `PersonaImageUpdater.update_html_with_images(dry_run)`: reads the
document (errors out if missing), processes every persona card, and — only
when not in dry-run mode and at least one persona was updated — creates the
backup and then writes the patched document.  Returns the results dict, the
in-memory document, and the trace of file operations in order. -/
def update_html_with_images (latest : String → Option String)
    (webPath : String → String) (htmlExists : Bool) (doc : List Card)
    (dryRun : Bool) (now : String) : PatchResult × List Card × List PatchOp :=
  if !htmlExists then
    ({ updated_personas := [], missing_images := [], errors := ["HTML file not found"] },
     doc, [])
  else
    let step := updateCards latest webPath dryRun doc
      { updated_personas := [], missing_images := [], errors := [] }
    if !dryRun && !step.2.updated_personas.isEmpty then
      (step.2, step.1, [.backup now, .writeHtml step.1])
    else
      (step.2, step.1, [])

/-- The literal `'.persona-image'` checked by `add_persona_image_css`. -/
def personaImagePat : List Char := ".persona-image".toList

/-- The literal `'.persona-avatar'` of the anchor regex. -/
def avatarRulePat : List Char := ".persona-avatar".toList

/-- The CSS block `persona_image_css` inserted by `add_persona_image_css`
(the Python triple-quoted string, leading newline and trailing indent
included). -/
def personaImageCssText : List Char :=
  ("\n        .persona-image \x7b\n            width: 100%;\n            height: 100%;\n            object-fit: cover;\n            border-radius: 50%;\n        \x7d\n        ").toList

/-- Match of the regex `\.persona-avatar\s*\x7b[^\x7d]*\x7d` anchored at the
start of `t`: returns the length of the match when it succeeds. -/
def matchRuleHere (t : List Char) : Option Nat :=
  if avatarRulePat.isPrefixOf t then
    let rest := t.drop avatarRulePat.length
    let wsLen := (rest.takeWhile Char.isWhitespace).length
    match rest.drop wsLen with
    | '\x7b' :: body =>
      let inner := body.takeWhile (fun c => c ≠ '\x7d')
      if inner.length < body.length then
        some (avatarRulePat.length + wsLen + 1 + inner.length + 1)
      else none
    | _ => none
  else none

/-- `re.search` of the anchor regex: end position of the leftmost match. -/
def findMatchEnd : List Char → Option Nat
  | [] => none
  | t@(_ :: rest) =>
    match matchRuleHere t with
    | some len => some len
    | none => (findMatchEnd rest).map (· + 1)

/-- `PersonaImageUpdater.add_persona_image_css(dry_run)` over the raw
document text: if the file is missing return `false`; if the substring
`.persona-image` occurs anywhere in the text, return `true` without touching
it; otherwise search for the `.persona-avatar` rule and, outside dry-run,
splice the CSS block in at the match end; with no anchor found return
`false` unmodified. -/
def add_persona_image_css (htmlExists : Bool) (dryRun : Bool) (html : List Char) :
    Bool × List Char :=
  if !htmlExists then (false, html)
  else if containsSub personaImagePat html then (true, html)
  else
    match findMatchEnd html with
    | some pos =>
        if dryRun then (true, html)
        else (true, html.take pos ++ personaImageCssText ++ html.drop pos)
    | none => (false, html)

/-- The `validation` dict of `validate_updates`. -/
structure Validation where
  valid : Bool
  issues : List String
  images_found : List (String × String)
deriving DecidableEq, Repr

/-- Loop body of `validate_updates` over one `div.persona-avatar`: `none`
when the div holds no `img`, otherwise `(src, alt)` with the defaulting of
`img.get('src', '')` / `img.get('alt', '')` already applied.  A missing file
appends an issue and clears `valid`; an empty alt only appends an issue. -/
def validateStep (fileExists : String → Bool) (acc : Validation)
    (avatarImg : Option (String × String)) : Validation :=
  match avatarImg with
  | none => acc
  | some (src, alt) =>
    let acc1 := { acc with images_found := acc.images_found ++ [(src, alt)] }
    let acc2 :=
      if fileExists src then acc1
      else { acc1 with
               valid := false
               issues := acc1.issues ++ ["Image file not found: " ++ src] }
    if alt = "" then
      { acc2 with issues := acc2.issues ++ ["Missing alt text for image: " ++ src] }
    else acc2

/-- `PersonaImageUpdater.validate_updates()`: over the sequence of avatar
divs of the parsed document.  A missing document is invalid; after the loop,
an empty `images_found` also clears `valid`. -/
def validate_updates (fileExists : String → Bool) (htmlExists : Bool)
    (avatars : List (Option (String × String))) : Validation :=
  if !htmlExists then
    { valid := false, issues := ["HTML file not found"], images_found := [] }
  else
    let res := avatars.foldl (validateStep fileExists)
      { valid := true, issues := [], images_found := [] }
    if res.images_found.isEmpty then
      { res with
          valid := false
          issues := res.issues ++ ["No persona images found in HTML"] }
    else res

/-! ### Waitlist endpoint: `app.py` -/

/-- The HTTP response of `join_waitlist`: status code plus the JSON
`success`/`message` payload. -/
structure WaitlistResponse where
  status : Nat
  success : Bool
  message : String
deriving DecidableEq, Repr

/-- Python's `str.strip()`: whitespace removed from both ends. -/
def pyStrip (l : List Char) : List Char :=
  ((l.dropWhile Char.isWhitespace).reverse.dropWhile Char.isWhitespace).reverse

/-- `join_waitlist` from `app.py`.  `body` is the parsed JSON object (its
string fields); `none` models a request whose JSON is absent, in which case
`data.get` raises and the catch-all returns 500.  `pyStrip` models Python's
`str.strip`, and the `'@' in email` / `'.' in email` checks are character
membership.  An accepted email appends one `timestamp | email` line to the
waitlist file. -/
def join_waitlist (body : Option (List (String × String))) (now : String)
    (store : List String) : WaitlistResponse × List String :=
  match body with
  | none => ({ status := 500, success := false, message := "An error occurred" }, store)
  | some data =>
    let email := pyStrip ((data.lookup "email").getD "").toList
    if email.isEmpty then
      ({ status := 400, success := false, message := "Email is required" }, store)
    else if !(email.contains '@') || !(email.contains '.') then
      ({ status := 400, success := false, message := "Invalid email address" }, store)
    else
      ({ status := 200, success := true,
         message := "Thanks for joining! We'll notify you when ValueSnap launches." },
       store ++ [now ++ " | " ++ String.mk email])

/-! ### Spec-side filename grammar -/

/-- Whether a character list is a well-formed `YYYYMMDD_HHMMSS` timestamp
token: 8 digits, an underscore, 6 digits. -/
def validTimestampChars (l : List Char) : Bool :=
  l.length == 15 && (l.take 8).all Char.isDigit
    && (l.drop 8).take 1 == ['_'] && (l.drop 9).all Char.isDigit

/-- Modelled from the spec: the repository writes filenames
`\x7bpersona_key\x7d_\x7bYYYYMMDD_HHMMSS\x7d.png` but contains no parser for
them; the spec's invariant is that the filename "must be parseable back into
`(persona_key, timestamp)`".  This is that parser, anchored at the end of the
name (the timestamp token is fixed-width), so that persona keys containing
underscores parse unambiguously. -/
def specParseFilename (fname : String) : Option (String × String) :=
  let cs := fname.toList
  let n := cs.length
  if (".png".toList).isSuffixOf cs then
    let stem := cs.take (n - 4)
    let sl := stem.length
    if decide (16 ≤ sl) && validTimestampChars (stem.drop (sl - 15))
        && ((stem.drop (sl - 16)).take 1 == ['_']) then
      some (String.mk (stem.take (sl - 16)), String.mk (stem.drop (sl - 15)))
    else none
  else none

/-- Whether a `generate_consumer_image` outcome is a success. -/
def genOk (r : Except String GenRecord) : Bool :=
  match r with
  | .ok _ => true
  | .error _ => false

/-- Spec-side description of the batch loop's event trace: every attempt
emits its `genCall`, and a `sleepCall` follows exactly when the attempt
succeeded and it is not the last one (`i < n - 1`).  Written from the spec's
words about the inter-request delay, to be compared with the trace the
embedded loop produces. -/
def specSleepTrace (succ : String → Bool) (delay n : Nat) :
    Nat → List String → List Event
  | _, [] => []
  | i, k :: rest =>
    Event.genCall k ::
      ((if succ k && decide (i < n - 1) then [Event.sleepCall delay] else []) ++
        specSleepTrace succ delay n (i + 1) rest)

/-! ### Concrete fixtures used by witnesses and counterexamples -/

/-- An environment in which the OpenAI call itself fails. -/
def envApiFail : GenEnv :=
  { apiResult := .error "boom"
    downloadResult := .ok []
    verifyResult := .ok (512, 512, "PNG") }

/-- An environment in which every step succeeds. -/
def envAllOk : GenEnv :=
  { apiResult := .ok "https://oai.example/img.png"
    downloadResult := .ok [137, 80, 78, 71]
    verifyResult := .ok (512, 512, "PNG") }

/-- An environment in which the download succeeds but the saved bytes fail
PIL verification. -/
def envVerifyFail : GenEnv :=
  { apiResult := .ok "https://oai.example/img.png"
    downloadResult := .ok [1, 2]
    verifyResult := .error "cannot identify image file" }

/-- A one-card document whose `h3` text matches the `Emeka` persona. -/
def docEmeka : List Card :=
  [ { nameText := some "Emeka, 37", avatar := some (.placeholder "E") } ]

/-- An asset-directory snapshot holding one image for `estate_inheritor`. -/
def latestEmekaOnly : String → Option String :=
  fun k =>
    if k = "estate_inheritor" then
      some "ai_image_generation/generated_images/estate_inheritor_20240101_120000.png"
    else none

/-- A document text as a previous patch run leaves it: the avatar div holds
`<img class="persona-image" ...>` and the style section holds only the
`.persona-avatar` rule — the dotted substring `.persona-image` occurs nowhere
in the raw text. -/
def prevPatchedDoc : List Char :=
  ("<html><head><style> .persona-avatar \x7b width: 80px; \x7d </style></head><body><div class=\"persona-card\"><div class=\"persona-avatar\"><img class=\"persona-image\" src=\"x.png\"/></div></div></body></html>").toList

/-- A document text that contains `.persona-image` only inside an HTML
comment, with no such style rule. -/
def commentedDoc : List Char :=
  ("<html><head><style> .persona-avatar \x7b width: 80px; \x7d </style></head><body><!-- .persona-image --></body></html>").toList

/-! ## Theorems -/

/-- Every field of a successful `generate_consumer_image` result dict that
identifies the persona and the run: the `persona_key` is the requested key,
the `timestamp` is the generation-time timestamp, and the filename follows
the `key_timestamp.png` convention. -/
theorem gci_ok_fields (env : GenEnv) (key now : String) (r : GenRecord)
    (h : (generate_consumer_image env key now).2 = .ok r) :
    r.persona_key = key ∧ r.timestamp = now ∧
      r.filename = key ++ "_" ++ now ++ ".png" := by
  unfold generate_consumer_image at h
  cases hl : consumer_personas.lookup key <;> rw [hl] at h
  · simp at h
  · cases ha : env.apiResult <;> rw [ha] at h
    · simp at h
    · cases hd : env.downloadResult <;> rw [hd] at h
      · simp at h
      · cases hv : env.verifyResult <;> rw [hv] at h
        · simp at h
        · rename_i dims
          obtain ⟨w, ht, fmt⟩ := dims
          simp at h
          subst h
          exact ⟨rfl, rfl, rfl⟩

/-- The outcome list of the batch loop carries exactly the processed keys,
in order, whatever the environment does. -/
theorem generateLoop_map_key (env : String → GenEnv) (now : String)
    (delay n : Nat) :
    ∀ (keys : List String) (i : Nat),
      ((generateLoop env now delay n i keys).1).map Outcome.key = keys := by
  intro keys
  induction keys with
  | nil => intro i; rfl
  | cons k rest ih =>
    intro i
    simp only [generateLoop]
    cases hg : (generate_consumer_image (env k) k now).2 with
    | ok r =>
      have hk := (gci_ok_fields _ _ _ _ hg).1
      by_cases hi : i < n - 1 <;> simp [hi, Outcome.key, hk, ih]
    | error e => simp [Outcome.key, ih]

/-- The batch loop yields one outcome per processed key. -/
theorem generateLoop_length (env : String → GenEnv) (now : String)
    (delay n : Nat) (keys : List String) (i : Nat) :
    ((generateLoop env now delay n i keys).1).length = keys.length := by
  have h := congrArg List.length (generateLoop_map_key env now delay n keys i)
  simpa using h

/-- The batch loop's event trace: a `sleepCall` follows an attempt exactly
when the attempt succeeded and its index is below `n - 1`. -/
theorem generateLoop_events (env : String → GenEnv) (now : String)
    (delay n : Nat) :
    ∀ (keys : List String) (i : Nat),
      (generateLoop env now delay n i keys).2 =
        specSleepTrace (fun k => genOk (generate_consumer_image (env k) k now).2)
          delay n i keys := by
  intro keys
  induction keys with
  | nil => intro i; rfl
  | cons k rest ih =>
    intro i
    cases hg : (generate_consumer_image (env k) k now).2 with
    | ok r =>
      by_cases hi : i < n - 1 <;>
        simp [generateLoop, specSleepTrace, hi, genOk, hg, ih]
    | error e => simp [generateLoop, specSleepTrace, genOk, hg, ih]

/-- C1: `generate_all_personas` yields exactly one outcome per persona of the
registry, in registry order — the outcome sequence's persona keys are exactly
`personaKeys` — for every behaviour of the external environment, so the batch
never aborts early no matter how many individual calls fail.  Each outcome
is by construction either a success record or an error record. -/
theorem generate_batch_yields_one_outcome_per_persona_in_order
    (env : String → GenEnv) (now : String) (delay : Nat) :
    ((generate_all_personas env now delay).1).map Outcome.key = personaKeys ∧
      ((generate_all_personas env now delay).1).length = personaKeys.length := by
  exact ⟨generateLoop_map_key env now delay personaKeys.length personaKeys 0,
         generateLoop_length env now delay personaKeys.length personaKeys 0⟩

/-- C2 counterexample: with the download succeeding and image verification
failing, `generate_consumer_image` leaves the written file in the asset
directory: the operation trace holds the write of the downloaded bytes and
no removal of any path, while the call raises.  This refutes the claim that
the written file is removed on verification failure. -/
theorem verify_failure_leaves_written_file :
    (generate_consumer_image envVerifyFail "estate_inheritor" "20240101_120000").1 =
      [FileOp.write "generated_images/estate_inheritor_20240101_120000.png" [1, 2]] ∧
    (∀ q, FileOp.remove q ∉
      (generate_consumer_image envVerifyFail "estate_inheritor" "20240101_120000").1) ∧
    genOk (generate_consumer_image envVerifyFail "estate_inheritor" "20240101_120000").2
      = false := by
  refine ⟨rfl, ?_, rfl⟩
  intro q hq
  rw [show (generate_consumer_image envVerifyFail "estate_inheritor"
      "20240101_120000").1 =
    [FileOp.write "generated_images/estate_inheritor_20240101_120000.png" [1, 2]]
    from rfl] at hq
  simp at hq

/-- C2 amended: for every persona in the registry, when the provider call and
the download succeed but verification of the saved bytes fails,
`generate_consumer_image` raises the typed wrapped error — but the file
written before verification stays in place: the operation trace is exactly
the one write, and contains no removal. -/
theorem generate_one_raises_but_leaves_file_on_verify_failure
    (env : GenEnv) (key now : String) (p : Persona) (url : String)
    (content : List Nat) (e : String)
    (hl : consumer_personas.lookup key = some p)
    (ha : env.apiResult = .ok url)
    (hd : env.downloadResult = .ok content)
    (hv : env.verifyResult = .error e) :
    generate_consumer_image env key now =
      ([FileOp.write ("generated_images/" ++ (key ++ "_" ++ now ++ ".png")) content],
       .error ("Failed to generate image for " ++ p.name ++
         ": Failed to verify saved image: " ++ e)) ∧
    ∀ q, FileOp.remove q ∉ (generate_consumer_image env key now).1 := by
  have h1 : generate_consumer_image env key now =
      ([FileOp.write ("generated_images/" ++ (key ++ "_" ++ now ++ ".png")) content],
       .error ("Failed to generate image for " ++ p.name ++
         ": Failed to verify saved image: " ++ e)) := by
    unfold generate_consumer_image
    rw [hl, ha, hd, hv]
  refine ⟨h1, ?_⟩
  intro q hq
  rw [h1] at hq
  simp at hq

/-- Witness for the amended C2 theorem at a concrete environment. -/
theorem generate_one_raises_but_leaves_file_on_verify_failure_witness :
    (generate_consumer_image envVerifyFail "reseller_entrepreneur" "20240102_000000").1 =
      [FileOp.write "generated_images/reseller_entrepreneur_20240102_000000.png" [1, 2]] ∧
    ∀ q, FileOp.remove q ∉
      (generate_consumer_image envVerifyFail "reseller_entrepreneur" "20240102_000000").1 := by
  have h := generate_one_raises_but_leaves_file_on_verify_failure
    envVerifyFail "reseller_entrepreneur" "20240102_000000" _ _ _ _ rfl rfl rfl rfl
  refine ⟨?_, h.2⟩
  rw [h.1]
  rfl

/-- C3 counterexample: in a batch where every attempt fails (the provider
call errors out each time), the event trace holds the four generation
attempts and no sleep at all — refuting the claim that the inter-request
delay is slept between every pair of successive attempts including after a
failed one. -/
theorem failed_attempts_skip_sleep :
    (generate_all_personas (fun _ => envApiFail) "20240101_120000" 2).2 =
      [Event.genCall "estate_inheritor", Event.genCall "reseller_entrepreneur",
       Event.genCall "antique_collector", Event.genCall "small_business_owner"] ∧
    personaKeys.length = 4 := ⟨rfl, rfl⟩

/-- C3 amended: the inter-request delay is slept directly after an attempt
exactly when that attempt succeeded and another persona remains
(`i < n - 1`); it is never slept after a failed attempt, nor after the last
one. -/
theorem sleep_follows_successful_nonfinal_attempts_only
    (env : String → GenEnv) (now : String) (delay : Nat) :
    (generate_all_personas env now delay).2 =
      specSleepTrace (fun k => genOk (generate_consumer_image (env k) k now).2)
        delay personaKeys.length 0 personaKeys :=
  generateLoop_events env now delay personaKeys.length personaKeys 0

/-- Counting helper: the success and failure filters of a list of outcomes
partition it. -/
theorem filter_isSuccess_partition (results : List Outcome) :
    (results.filter (fun r => r.isSuccess)).length +
      (results.filter (fun r => !r.isSuccess)).length = results.length :=
  (List.length_eq_length_filter_add (fun r : Outcome => r.isSuccess)).symm

/-- C5 counterexample: `save_generation_report` over a single-outcome batch
result has `successful_generations + failed_generations = 1`, while
`total_personas` is the registry size `4` — the counts do not sum to the
number of outcomes the report covers as soon as that number differs from the
registry size. -/
theorem report_total_is_registry_size_counterexample :
    (save_generation_report [Outcome.failure "estate_inheritor" "boom"]).successful_generations +
      (save_generation_report [Outcome.failure "estate_inheritor" "boom"]).failed_generations ≠
    (save_generation_report [Outcome.failure "estate_inheritor" "boom"]).total_personas := by
  decide

/-- C5 amended: the report's success and failure counts always sum to the
length of the outcome list passed in, while `total_personas` is the registry
size; for outcome lists produced by `generate_all_personas` — which cover
exactly the registry — the two coincide, so
`successful_generations + failed_generations = total_personas` holds for
every actual batch run. -/
theorem report_counts_sum_to_outcomes
    (results : List Outcome) (env : String → GenEnv) (now : String) (delay : Nat) :
    ((save_generation_report results).successful_generations +
        (save_generation_report results).failed_generations = results.length) ∧
    ((save_generation_report results).total_personas = consumer_personas.length) ∧
    ((save_generation_report ((generate_all_personas env now delay).1)).successful_generations +
        (save_generation_report ((generate_all_personas env now delay).1)).failed_generations =
      (save_generation_report ((generate_all_personas env now delay).1)).total_personas) := by
  refine ⟨filter_isSuccess_partition results, rfl, ?_⟩
  simp only [save_generation_report, generate_all_personas]
  rw [filter_isSuccess_partition, generateLoop_length]
  rfl

/-- C4: the patched document is written only when at least one persona was
actually updated and the run is not a dry run; and whenever a write occurs,
the operation trace is exactly the timestamped backup followed by the write —
the document is never written without the backup having been created first.
With `dry_run=true` or zero updated personas no file operation touches the
target document. -/
theorem backup_precedes_document_write (latest : String → Option String)
    (webPath : String → String) (htmlExists : Bool) (doc : List Card)
    (dryRun : Bool) (now : String) :
    (dryRun = true →
      (update_html_with_images latest webPath htmlExists doc dryRun now).2.2 = []) ∧
    ((update_html_with_images latest webPath htmlExists doc dryRun now).1.updated_personas = [] →
      (update_html_with_images latest webPath htmlExists doc dryRun now).2.2 = []) ∧
    ((update_html_with_images latest webPath htmlExists doc dryRun now).2.2 ≠ [] →
      (update_html_with_images latest webPath htmlExists doc dryRun now).2.2 =
        [PatchOp.backup now,
         PatchOp.writeHtml
           ((update_html_with_images latest webPath htmlExists doc dryRun now).2.1)]) := by
  cases htmlExists with
  | false =>
    exact ⟨fun _ => rfl, fun _ => rfl, fun h => absurd rfl h⟩
  | true =>
    cases dryRun with
    | true =>
      have hops :
          (update_html_with_images latest webPath true doc true now).2.2 = [] := by
        simp [update_html_with_images]
      exact ⟨fun _ => hops, fun _ => hops, fun h => absurd hops h⟩
    | false =>
      by_cases hU : (updateCards latest webPath false doc
          { updated_personas := [], missing_images := [], errors := [] }).2.updated_personas = []
      · have hops :
            (update_html_with_images latest webPath true doc false now).2.2 = [] := by
          simp [update_html_with_images, hU]
        exact ⟨fun h => (Bool.false_ne_true h).elim, fun _ => hops, fun h => absurd hops h⟩
      · have hops :
            (update_html_with_images latest webPath true doc false now).2.2 =
              [PatchOp.backup now,
               PatchOp.writeHtml
                 ((update_html_with_images latest webPath true doc false now).2.1)] := by
          simp [update_html_with_images, hU]
        have hupd :
            (update_html_with_images latest webPath true doc false now).1.updated_personas ≠ [] := by
          simp [update_html_with_images, hU]
        exact ⟨fun h => (Bool.false_ne_true h).elim, fun h => absurd h hupd, fun _ => hops⟩

/-- Witness for C4 at a concrete patch run: with a matching card and an
available asset, the non-dry-run file-operation trace is exactly backup then
write, and the dry run performs no file operation. -/
theorem backup_precedes_document_write_witness :
    (update_html_with_images latestEmekaOnly id true docEmeka false "20240101_120000").2.2 =
      [PatchOp.backup "20240101_120000",
       PatchOp.writeHtml
         ((update_html_with_images latestEmekaOnly id true docEmeka false "20240101_120000").2.1)] ∧
    (update_html_with_images latestEmekaOnly id true docEmeka true "20240101_120000").2.2 = [] := by
  refine ⟨?_, ?_⟩
  · exact (backup_precedes_document_write latestEmekaOnly id true docEmeka
      false "20240101_120000").2.2 (by decide)
  · exact (backup_precedes_document_write latestEmekaOnly id true docEmeka
      true "20240101_120000").1 rfl

/-- The value of the fold of `validateStep`: `images_found` collects every
avatar that holds an `img`, `valid` stays set exactly while every collected
image's file exists, and `issues` collects a file issue for each missing file
and an alt issue for each empty alt text, in document order. -/
theorem foldl_validateStep_spec (fe : String → Bool) :
    ∀ (avs : List (Option (String × String))) (acc : Validation),
      ((avs.foldl (validateStep fe) acc).images_found =
          acc.images_found ++ avs.filterMap id) ∧
      ((avs.foldl (validateStep fe) acc).valid =
          (acc.valid && (avs.filterMap id).all (fun pr => fe pr.1))) ∧
      ((avs.foldl (validateStep fe) acc).issues =
          acc.issues ++ (avs.filterMap id).flatMap (fun pr =>
            (if fe pr.1 then [] else ["Image file not found: " ++ pr.1]) ++
            (if pr.2 = "" then ["Missing alt text for image: " ++ pr.1] else []))) := by
  intro avs
  induction avs with
  | nil => intro acc; simp
  | cons av rest ih =>
    intro acc
    cases av with
    | none =>
      simpa [validateStep] using ih acc
    | some pr =>
      obtain ⟨src, alt⟩ := pr
      by_cases hf : fe src = true <;> by_cases ha : alt = "" <;>
        simp [validateStep, hf, ha, ih, Bool.and_assoc]

/-- C6 counterexample: a document holding a single avatar image whose file
exists but whose alt text is empty is reported with the missing-alt issue
recorded yet `valid = true` — refuting the claim that a missing accessible
text description sets `valid` to false. -/
theorem missing_alt_does_not_invalidate :
    (validate_updates (fun _ => true) true [some ("x.png", "")]).valid = true ∧
    (validate_updates (fun _ => true) true [some ("x.png", "")]).issues =
      ["Missing alt text for image: x.png"] := ⟨rfl, rfl⟩

/-- C6 amended: `validate_updates` collects every avatar image reference in
document order; `valid` is true exactly when at least one image reference was
found and every referenced file exists; a missing file contributes its issue,
and a missing alt text contributes its issue without clearing `valid`; a
document with zero image references is reported invalid. -/
theorem validate_updates_spec (fe : String → Bool)
    (avatars : List (Option (String × String))) :
    ((validate_updates fe true avatars).images_found = avatars.filterMap id) ∧
    ((validate_updates fe true avatars).valid =
        (!(avatars.filterMap id).isEmpty &&
          (avatars.filterMap id).all (fun pr => fe pr.1))) ∧
    (∀ pr ∈ avatars.filterMap id, fe pr.1 = false →
      ("Image file not found: " ++ pr.1) ∈ (validate_updates fe true avatars).issues) ∧
    (∀ pr ∈ avatars.filterMap id, pr.2 = "" →
      ("Missing alt text for image: " ++ pr.1) ∈ (validate_updates fe true avatars).issues) := by
  obtain ⟨himg, hval, hiss⟩ := foldl_validateStep_spec fe avatars
    { valid := true, issues := [], images_found := [] }
  simp only [List.nil_append] at himg hval hiss
  have hmem : ∀ pr ∈ avatars.filterMap id,
      (fe pr.1 = false → ("Image file not found: " ++ pr.1) ∈
        (avatars.foldl (validateStep fe)
          { valid := true, issues := [], images_found := [] }).issues) ∧
      (pr.2 = "" → ("Missing alt text for image: " ++ pr.1) ∈
        (avatars.foldl (validateStep fe)
          { valid := true, issues := [], images_found := [] }).issues) := by
    intro pr hpr
    rw [hiss]
    constructor
    · intro hf
      refine List.mem_flatMap.mpr ⟨pr, hpr, ?_⟩
      simp [hf]
    · intro ha
      refine List.mem_flatMap.mpr ⟨pr, hpr, ?_⟩
      by_cases hf : fe pr.1 = true <;> simp [hf, ha]
  have hdef : validate_updates fe true avatars =
      (if (avatars.foldl (validateStep fe)
            { valid := true, issues := [], images_found := [] }).images_found.isEmpty then
        { (avatars.foldl (validateStep fe)
            { valid := true, issues := [], images_found := [] }) with
            valid := false
            issues := (avatars.foldl (validateStep fe)
              { valid := true, issues := [], images_found := [] }).issues ++
              ["No persona images found in HTML"] }
      else (avatars.foldl (validateStep fe)
        { valid := true, issues := [], images_found := [] })) := rfl
  by_cases hE : (avatars.foldl (validateStep fe)
      { valid := true, issues := [], images_found := [] }).images_found.isEmpty
  · have hnil : avatars.filterMap id = [] := by
      rw [himg] at hE
      simpa using hE
    rw [hdef, if_pos hE]
    refine ⟨by simpa using himg, by simp [hnil], ?_, ?_⟩
    · intro pr hpr
      rw [hnil] at hpr
      simp at hpr
    · intro pr hpr
      rw [hnil] at hpr
      simp at hpr
  · have hne : (avatars.filterMap id).isEmpty = false := by
      rw [himg] at hE
      simpa using hE
    rw [hdef, if_neg hE]
    refine ⟨himg, ?_, ?_, ?_⟩
    · rw [hval, hne]
      simp
    · intro pr hpr hf
      exact (hmem pr hpr).1 hf
    · intro pr hpr ha
      exact (hmem pr hpr).2 ha

/-- Witness for the amended C6 theorem at a document with one avatar image
whose file is missing and whose alt text is empty. -/
theorem validate_updates_spec_witness :
    (("Image file not found: " ++ "gone.png") ∈
      (validate_updates (fun _ => false) true [some ("gone.png", "")]).issues) ∧
    (("Missing alt text for image: " ++ "gone.png") ∈
      (validate_updates (fun _ => false) true [some ("gone.png", "")]).issues) ∧
    (validate_updates (fun _ => false) true [some ("gone.png", "")]).valid = false := by
  have h := validate_updates_spec (fun _ => false) [some ("gone.png", "")]
  refine ⟨?_, ?_, ?_⟩
  · exact h.2.2.1 ("gone.png", "") (by decide) rfl
  · exact h.2.2.2 ("gone.png", "") (by decide) rfl
  · rw [h.2.1]
    decide

/-- `containsSub` coincides with list-infix containment. -/
theorem containsSub_eq_true_iff (pat : List Char) :
    ∀ l : List Char, containsSub pat l = true ↔ pat <:+: l := by
  intro l
  induction l with
  | nil =>
    simp [containsSub, List.infix_nil, List.isEmpty_iff]
  | cons c rest ih =>
    simp [containsSub, List.infix_cons_iff, List.isPrefixOf_iff_prefix, ih]

/-- The card transformation of `updateOneCard` does not depend on the
results accumulator. -/
theorem updateOneCard_fst_acc (latest : String → Option String)
    (webPath : String → String) (dryRun : Bool) (c : Card)
    (a b : PatchResult) :
    (updateOneCard latest webPath dryRun c a).1 =
      (updateOneCard latest webPath dryRun c b).1 := by
  obtain ⟨cn, cav⟩ := c
  cases cn with
  | none => rfl
  | some nt =>
    simp only [updateOneCard]
    cases matchPersona nt with
    | none => rfl
    | some kv =>
      obtain ⟨key, info⟩ := kv
      dsimp only
      cases latest key with
      | none => rfl
      | some path =>
        dsimp only
        cases cav with
        | none => rfl
        | some av =>
          cases dryRun <;> rfl

/-- The patched card list is the pointwise card transformation, regardless
of how the accumulator threads through the loop. -/
theorem updateCards_fst (latest : String → Option String)
    (webPath : String → String) (dryRun : Bool) :
    ∀ (cards : List Card) (acc : PatchResult),
      (updateCards latest webPath dryRun cards acc).1 =
        cards.map (fun c => (updateOneCard latest webPath dryRun c
          { updated_personas := [], missing_images := [], errors := [] }).1) := by
  intro cards
  induction cards with
  | nil => intro acc; rfl
  | cons c rest ih =>
    intro acc
    simp only [updateCards, List.map_cons]
    exact congrArg₂ List.cons (updateOneCard_fst_acc latest webPath dryRun c _ _) (ih _)

/-- Transforming an already-transformed card changes nothing: the card's
`h3` text is untouched by the update, so it matches the same persona and
receives the same image content again. -/
theorem updateOneCard_fst_idem (latest : String → Option String)
    (webPath : String → String) (c : Card) (a b : PatchResult) :
    (updateOneCard latest webPath false
        ((updateOneCard latest webPath false c a).1) b).1 =
      (updateOneCard latest webPath false c a).1 := by
  obtain ⟨cn, cav⟩ := c
  cases cn with
  | none => rfl
  | some nt =>
    cases hm : matchPersona nt with
    | none =>
      have h1 : (updateOneCard latest webPath false ⟨some nt, cav⟩ a).1 =
          ⟨some nt, cav⟩ := by
        simp [updateOneCard, hm]
      rw [h1]
      simp [updateOneCard, hm]
    | some kv =>
      obtain ⟨key, info⟩ := kv
      cases hl : latest key with
      | none =>
        have h1 : (updateOneCard latest webPath false ⟨some nt, cav⟩ a).1 =
            ⟨some nt, cav⟩ := by
          simp [updateOneCard, hm, hl]
        rw [h1]
        simp [updateOneCard, hm, hl]
      | some path =>
        cases cav with
        | none =>
          have h1 : (updateOneCard latest webPath false
              (⟨some nt, none⟩ : Card) a).1 = ⟨some nt, none⟩ := by
            simp [updateOneCard, hm, hl]
          rw [h1]
          simp [updateOneCard, hm, hl]
        | some av =>
          have h1 : (updateOneCard latest webPath false
              (⟨some nt, some av⟩ : Card) a).1 =
              ⟨some nt, some (AvatarContent.image (webPath path)
                (info.html_name ++ " - " ++ info.description))⟩ := by
            simp [updateOneCard, hm, hl]
          rw [h1]
          simp [updateOneCard, hm, hl]

/-- The in-memory document produced by `update_html_with_images` on an
existing file is the transformed card list, for any mode. -/
theorem update_html_doc (latest : String → Option String)
    (webPath : String → String) (doc : List Card) (dryRun : Bool)
    (now : String) :
    (update_html_with_images latest webPath true doc dryRun now).2.1 =
      (updateCards latest webPath dryRun doc
        { updated_personas := [], missing_images := [], errors := [] }).1 := by
  by_cases hC : (!dryRun && !(updateCards latest webPath dryRun doc
      { updated_personas := [], missing_images := [], errors := [] }).2.updated_personas.isEmpty) = true
  · simp [update_html_with_images, hC]
  · simp [update_html_with_images, hC]

/-- C7: patching is idempotent.  Applying `update_html_with_images`
(non-dry-run) to its own output document with the same resolved assets
reproduces that document exactly — the avatar content is replaced, not
appended to, so no duplicate image tags can accumulate — and a second
`add_persona_image_css` run over the text produced by a first one changes
nothing, because the inserted block itself contains the `.persona-image`
guard substring. -/
theorem patch_and_css_insertion_idempotent (latest : String → Option String)
    (webPath : String → String) :
    (∀ (doc : List Card) (now now' : String),
      (update_html_with_images latest webPath true
          ((update_html_with_images latest webPath true doc false now).2.1)
          false now').2.1 =
        (update_html_with_images latest webPath true doc false now).2.1) ∧
    (∀ html : List Char,
      (add_persona_image_css true false
          ((add_persona_image_css true false html).2)).2 =
        (add_persona_image_css true false html).2) := by
  constructor
  · intro doc now now'
    rw [update_html_doc, update_html_doc, updateCards_fst, updateCards_fst,
      List.map_map]
    refine List.map_congr_left ?_
    intro c _
    exact updateOneCard_fst_idem latest webPath c _ _
  · intro html
    by_cases h1 : containsSub personaImagePat html = true
    · simp [add_persona_image_css, h1]
    · cases hf : findMatchEnd html with
      | none =>
        simp [add_persona_image_css, h1, hf]
      | some pos =>
        have hstep : (add_persona_image_css true false html).2 =
            html.take pos ++ personaImageCssText ++ html.drop pos := by
          simp [add_persona_image_css, h1, hf]
        have hcss : personaImagePat <:+: personaImageCssText :=
          (containsSub_eq_true_iff personaImagePat personaImageCssText).mp (by decide)
        have hres : containsSub personaImagePat
            (html.take pos ++ (personaImageCssText ++ html.drop pos)) = true :=
          (containsSub_eq_true_iff _ _).mpr
            (hcss.trans (by rw [← List.append_assoc]; exact List.infix_append _ _ _))
        rw [hstep]
        simp [add_persona_image_css, hres]

set_option maxRecDepth 8192

/-- C10 counterexample: a document text as a previous patch run leaves it —
`<img class="persona-image" ...>` in the avatar div, no `.persona-image`
style rule — does not contain the dotted guard substring, and
`add_persona_image_css` modifies it (inserting the rule after the
`.persona-avatar` anchor), refuting the claim that such a document is left
entirely unmodified. -/
theorem substring_guard_misses_class_attribute :
    containsSub personaImagePat prevPatchedDoc = false ∧
    (add_persona_image_css true false prevPatchedDoc).1 = true ∧
    (add_persona_image_css true false prevPatchedDoc).2 ≠ prevPatchedDoc := by
  refine ⟨by decide, by decide, ?_⟩
  have hlen : (add_persona_image_css true false prevPatchedDoc).2.length ≠
      prevPatchedDoc.length := by decide
  exact fun h => hlen (congrArg List.length h)

/-- C10 amended: the guard is a plain substring test over the whole document
text: any document whose raw text contains `.persona-image` anywhere — also
outside the style section, e.g. in a comment — makes `add_persona_image_css`
return `true` without modifying the document.  An `img` element's
`class="persona-image"` attribute, however, does not contain the dotted
substring and does not trigger the guard. -/
theorem css_guard_is_substring_test (dryRun : Bool) (html : List Char)
    (h : containsSub personaImagePat html = true) :
    add_persona_image_css true dryRun html = (true, html) := by
  simp [add_persona_image_css, h]

/-- Witness for the amended C10 theorem: a document containing
`.persona-image` only inside an HTML comment is reported as already styled
and left unmodified. -/
theorem css_guard_is_substring_test_witness :
    add_persona_image_css true false commentedDoc = (true, commentedDoc) :=
  css_guard_is_substring_test false commentedDoc (by decide)

/-- C9: `POST /api/waitlist` with `email = "not-an-email"` returns 400 and
leaves the waitlist store unchanged; with `email = "a@b.com"` it returns 200
with `success = true` and appends exactly one timestamp-delimited line, for
every prior store content and request time. -/
theorem waitlist_rejects_invalid_and_appends_valid (store : List String)
    (now : String) :
    ((join_waitlist (some [("email", "not-an-email")]) now store).1.status = 400) ∧
    ((join_waitlist (some [("email", "not-an-email")]) now store).2 = store) ∧
    ((join_waitlist (some [("email", "a@b.com")]) now store).1.status = 200) ∧
    ((join_waitlist (some [("email", "a@b.com")]) now store).1.success = true) ∧
    ((join_waitlist (some [("email", "a@b.com")]) now store).2 =
      store ++ [now ++ " | " ++ "a@b.com"]) := by
  exact ⟨rfl, rfl, rfl, rfl, rfl⟩

/-- Round-trip of the filename grammar: parsing a filename assembled as
`key ++ "_" ++ timestamp ++ ".png"` recovers the key and the timestamp
exactly, for every key — in particular keys containing underscores — as long
as the timestamp token is well-formed. -/
theorem specParse_mk (key now : String)
    (hts : validTimestampChars now.toList = true) :
    specParseFilename (key ++ "_" ++ now ++ ".png") = some (key, now) := by
  have hm15 : now.toList.length = 15 := by
    unfold validTimestampChars at hts
    simp only [Bool.and_eq_true, beq_iff_eq] at hts
    exact hts.1.1.1
  have hm15s : now.length = 15 := hm15
  have hcs : (key ++ "_" ++ now ++ ".png").toList =
      ((key.toList ++ ['_']) ++ now.toList) ++ ['.', 'p', 'n', 'g'] := rfl
  have hassoc : ((key.toList ++ ['_']) ++ now.toList) =
      key.toList ++ ('_' :: now.toList) := by simp
  have hsuf : (".png".toList).isSuffixOf
      ((((key.toList ++ ['_']) ++ now.toList)) ++ ['.', 'p', 'n', 'g']) = true := by
    apply List.isSuffixOf_iff_suffix.mpr
    exact List.suffix_append _ _
  have hstem : ((((key.toList ++ ['_']) ++ now.toList)) ++ ['.', 'p', 'n', 'g']).take
      (((((key.toList ++ ['_']) ++ now.toList)) ++ ['.', 'p', 'n', 'g']).length - 4) =
      ((key.toList ++ ['_']) ++ now.toList) := by
    apply List.take_left'
    simp
    omega
  have h16 : 16 ≤ ((key.toList ++ ['_']) ++ now.toList).length := by
    simp
    omega
  have hd15 : ((key.toList ++ ['_']) ++ now.toList).drop
      (((key.toList ++ ['_']) ++ now.toList).length - 15) = now.toList := by
    rw [show ((key.toList ++ ['_']) ++ now.toList).length - 15 =
      (key.toList ++ ['_']).length from by simp; omega]
    exact List.drop_left _ _
  have hd16 : ((key.toList ++ ['_']) ++ now.toList).drop
      (((key.toList ++ ['_']) ++ now.toList).length - 16) = '_' :: now.toList := by
    rw [hassoc, show (key.toList ++ ('_' :: now.toList)).length - 16 =
      key.toList.length from by simp; omega]
    exact List.drop_left _ _
  have ht16 : ((key.toList ++ ['_']) ++ now.toList).take
      (((key.toList ++ ['_']) ++ now.toList).length - 16) = key.toList := by
    rw [hassoc, show (key.toList ++ ('_' :: now.toList)).length - 16 =
      key.toList.length from by simp; omega]
    exact List.take_left _ _
  simp only [specParseFilename, hcs, hstem, hsuf, hd15, hd16, ht16, hts,
    List.take_succ_cons, List.take_zero, Bool.and_eq_true, decide_eq_true_eq,
    beq_self_eq_true, if_true, and_true, true_and, and_self, eq_self_iff_true,
    iff_true_intro h16, ite_true]
  rfl

/-- C8: for every `GeneratedAsset` produced by a successful
`generate_consumer_image` call, parsing its filename recovers exactly the
requested persona key — underscores in the key included — together with the
generation timestamp itself, which is therefore no later than the time of
generation. -/
theorem generated_filename_roundtrip (env : GenEnv) (key now : String)
    (r : GenRecord)
    (hok : (generate_consumer_image env key now).2 = .ok r)
    (hts : validTimestampChars now.toList = true) :
    specParseFilename r.filename = some (key, now) ∧ r.timestamp = now := by
  obtain ⟨hk, ht, hf⟩ := gci_ok_fields env key now r hok
  refine ⟨?_, ht⟩
  rw [hf]
  exact specParse_mk key now hts

/-- Witness for C8 at a successful concrete generation. -/
theorem generated_filename_roundtrip_witness :
    validTimestampChars ("20240101_120000".toList) = true ∧
    ∃ r : GenRecord,
      (generate_consumer_image envAllOk "estate_inheritor" "20240101_120000").2 = .ok r ∧
      specParseFilename r.filename = some ("estate_inheritor", "20240101_120000") := by
  refine ⟨by decide, ?_⟩
  refine ⟨_, rfl, ?_⟩
  exact (generated_filename_roundtrip envAllOk "estate_inheritor" "20240101_120000"
    _ rfl (by decide)).1

end ValueSnap
